import Mathlib

/-!
# Verification of the songtov video-generation pipeline

Shallow embedding of the core of the repository:

* `src/backend/video/progress_tracker.py` (`RenderProgressTracker`)
* `src/backend/generation/video_generator.py` (`VideoGenerator._generate_from_url_worker`)
* `src/backend/video/processor.py` (`VideoProcessor.combine_videos_with_transitions`)
* `src/backend/comfyui/fix_workflow.py` (`fix_workflow_file`, link validation)
* `src/backend/comfyui/interface.py` (`update_workflow`, `wait_for_prompt`,
  `generate_scene`)

Pure Python functions become Lean functions; the mutable per-job progress
dictionary becomes an explicit state (`TrackerJob`) acted on by tracker
events; the background worker becomes a deterministic event-trace generator
parameterised by the outcomes of its external collaborators (`Scenario`).
Percentages are rationals, wall-clock time is natural-number seconds.
-/

namespace Songtov

/-! ## Progress tracker (`progress_tracker.py`)

One job's mutable dictionary, restricted to the fields the tracker logic
reads or writes (timestamps, title and scene-description list are carried by
the Python dict but never branch the logic and are dropped). -/

structure TrackerJob where
  totalScenes : Nat
  processedScenes : Nat
  currentStage : String
  stageName : String
  stageProgress : ℚ
  overallProgress : ℚ
  status : String
  error : Option String
  deriving DecidableEq, Repr

/-- `create_job`: the initial dictionary stored for a fresh job
(`progress_tracker.py`, lines 66-83). -/
def createJob (totalScenes : Nat) : TrackerJob :=
  { totalScenes := totalScenes
    processedScenes := 0
    currentStage := "initializing"
    stageName := "initializing"
    stageProgress := 0
    overallProgress := 0
    status := "running"
    error := none }

/-- The `stage_weights` table of `update_stage`
(`progress_tracker.py`, lines 138-145). -/
def stageWeight (stageName : String) : Option ℚ :=
  if stageName == "initializing" then some 0
  else if stageName == "download" then some 5
  else if stageName == "lyrics" then some 10
  else if stageName == "scene_planning" then some 15
  else if stageName == "scene_generation" then some 20
  else if stageName == "video_creation" then some 50
  else none

/-- The tracker's mutating entry points, one constructor per method of
`RenderProgressTracker` that the orchestrator calls on an existing job.
`updateJobSceneDescriptions` stands for the worker's
`update_job(job_id, job_data)` call, whose argument is the very dictionary
returned (uncopied) by `get_job`, so the merge changes no tracked field. -/
inductive TEvent where
  | setTotalScenes (n : Nat)
  | updateStage (stageName stageDescription : String)
  | updateJobSceneDescriptions
  | updateSceneProgress (sceneIndex : Nat)
  | updateTransitionProgress (transitionIndex totalTransitions : Nat)
  | updateAudioProgress (progressPercent : ℚ)
  | completeJob
  | failJob (errorMessage : String)
  deriving DecidableEq, Repr

/-- One tracker method call acting on one job's stored state, translated
from `progress_tracker.py` (lines 92-363).  Each branch mirrors the body of
the corresponding Python method. -/
def step (s : TrackerJob) : TEvent → TrackerJob
  | .setTotalScenes n => { s with totalScenes := n }
  | .updateStage name desc =>
      { s with
        stageName := name
        currentStage := desc
        stageProgress := 0
        overallProgress :=
          match stageWeight name with
          | some w => w
          | none => s.overallProgress }
  | .updateJobSceneDescriptions => s
  | .updateSceneProgress idx =>
      let sp : ℚ := (idx + 1 : ℚ) / (max 1 s.totalScenes : ℕ) * 100
      { s with
        processedScenes := s.processedScenes + 1
        currentStage := "Processing scene " ++ toString (idx + 1) ++ "/" ++ toString s.totalScenes
        stageProgress := sp
        overallProgress :=
          if s.stageName == "scene_generation" then min 100 (20 + (50 - 20) * sp / 100)
          else if s.stageName == "video_creation" then min 100 (50 + (75 - 50) * sp / 100)
          else s.overallProgress }
  | .updateTransitionProgress idx total =>
      let sp : ℚ := (idx + 1 : ℚ) / (max 1 total : ℕ) * 100
      { s with
        currentStage := "Adding transitions " ++ toString (idx + 1) ++ "/" ++ toString total
        stageProgress := sp
        overallProgress := min 100 (75 + (90 - 75) * sp / 100) }
  | .updateAudioProgress p =>
      { s with
        currentStage := "Adding audio"
        stageProgress := p
        overallProgress := min 100 (90 + (100 - 90) * p / 100) }
  | .completeJob =>
      { s with
        currentStage := "Completed"
        stageProgress := 100
        overallProgress := 100
        status := "completed" }
  | .failJob msg =>
      { s with status := "failed", error := some msg }

/-- The sequence of stored states a poller can observe over a run: the
initial state followed by the state after each tracker call (`_save_progress`
persists after every mutation, so every element is an observable snapshot). -/
def runStates (s : TrackerJob) : List TEvent → List TrackerJob
  | [] => [s]
  | e :: es => s :: runStates (step s e) es

/-- Final stored state after a sequence of tracker calls. -/
def runEnd (s : TrackerJob) (es : List TEvent) : TrackerJob :=
  es.foldl step s

/-! ## Orchestrator worker (`video_generator.py`)

`_generate_from_url_worker` is deterministic once the outcomes of its
external collaborators are fixed; a `Scenario` records those outcomes and
the worker becomes a pure generator of tracker events. -/

/-- One element of the `scene_results` list returned by
`FastRenderer.batch_generate_scenes`: scene id plus whether image
generation succeeded (the other dictionary fields never branch the worker's
control flow on the success side). -/
structure SceneResult where
  sceneId : String
  success : Bool
  deriving DecidableEq, Repr

/-- Lines 272-282 of `video_generator.py`: filter the successful scenes and
abort the job when fewer than 2 succeeded, otherwise hand exactly the
successful ones to video creation. -/
def sceneHandoff (sceneResults : List SceneResult) :
    Except String (List SceneResult) :=
  let successfulScenes := sceneResults.filter (fun r => r.success)
  if successfulScenes.length < 2 then
    .error ("Not enough scenes were successfully generated (only "
      ++ toString successfulScenes.length ++ ")")
  else
    .ok successfulScenes

/-- Outcomes of the worker's external collaborators for one job. -/
structure Scenario where
  /-- `download_from_url` error, `none` on success. -/
  downloadError : Option String
  /-- the resolved `scene_count` (explicit or derived). -/
  sceneCount : Nat
  /-- per scene description, whether `batch_generate_scenes` succeeded. -/
  genResults : List SceneResult
  /-- per processed scene, whether `create_scene_video` succeeded. -/
  videoOk : List Bool
  /-- whether `combine_videos_with_transitions` succeeded. -/
  combineOk : Bool
  /-- whether `add_audio` succeeded. -/
  audioOk : Bool
  deriving Repr

/-- The `for i, scene in enumerate(processed_scenes)` loop of lines 347-369:
`update_scene_progress(job_id, i, ...)` fires exactly for the indices whose
scene video was created successfully; failures are logged and skipped. -/
def sceneLoopEvents : Nat → List Bool → List TEvent
  | _, [] => []
  | i, ok :: rest =>
      (if ok then [TEvent.updateSceneProgress i] else [])
        ++ sceneLoopEvents (i + 1) rest

/-- Tracker calls issued by `_generate_from_url_worker`
(`video_generator.py`, lines 151-463), in program order, for a given
scenario.  Numbers in comments are source lines. -/
def workerEvents (sc : Scenario) : List TEvent :=
  TEvent.updateStage "download" "Downloading audio from URL"     -- line 154
    :: match sc.downloadError with
  | some e => [.failJob ("Download failed: " ++ e)]              -- line 160
  | none =>
    .updateStage "lyrics" "Extracting lyrics from audio"         -- line 164
      :: .setTotalScenes sc.sceneCount                           -- line 209
      :: .updateStage "scene_planning" "Creating scene descriptions from lyrics"
      :: .updateJobSceneDescriptions                             -- line 254
      :: .updateStage "scene_generation" "Generating scene images"
      :: match sceneHandoff sc.genResults with
    | .error msg => [.failJob msg]                               -- line 281
    | .ok _ =>
      .updateStage "video_creation" "Creating video from scenes and audio"
        :: sceneLoopEvents 0 sc.videoOk                          -- line 366
        ++ if sc.videoOk.count true == 0 then
             [.failJob "Failed to create any scene videos"]      -- line 375
           else if !sc.combineOk then
             [.failJob "Error combining scenes: combine error"]  -- line 396
           else
             .updateTransitionProgress (sc.videoOk.count true - 1)
               (sc.videoOk.count true - 1)                       -- line 400
               :: if !sc.audioOk then
                    [.failJob "Error adding audio: audio error"] -- line 414
                  else
                    [.updateAudioProgress 100,                   -- line 418
                     .completeJob]                               -- line 421

/-- All tracker events of a job, starting with the `update_stage "download"`
call foreground `generate_from_url` makes before spawning the worker
(`video_generator.py`, line 103); `create_job` (line 102) is the initial
state, taken with `total_scenes = 0`. -/
def jobEvents (sc : Scenario) : List TEvent :=
  TEvent.updateStage "download" "Downloading audio from URL" :: workerEvents sc

/-- The observable snapshot sequence of a job's whole lifetime. -/
def jobSnapshots (sc : Scenario) : List TrackerJob :=
  runStates (createJob 0) (jobEvents sc)

/-! ## Transition compositor (`processor.py`)

`combine_videos_with_transitions` manipulates media files through an
external encoder; a clip is modelled by its content, and the pairwise
`add_transition` encoder invocation is an abstract parameter. -/

/-- A produced media file, identified by its content.  `shutil.copy`
preserves content, so copying a clip to the output path yields the same
`Clip`. -/
structure Clip where
  content : String
  deriving DecidableEq, Repr

/-- The `for i in range(1, len(video_paths))` reduction of
`combine_videos_with_transitions` (`processor.py`, lines 381-402): fold the
pairwise transition over the remaining clips, aborting on the first
failure. -/
def combineLoop (add_transition : Clip → Clip → String → ℚ → Except String Clip) :
    Clip → List Clip → String → ℚ → Except String Clip
  | result, [], _, _ => .ok result
  | result, c :: rest, ttype, tdur =>
    match add_transition result c ttype tdur with
    | .error e => .error e
    | .ok r => combineLoop add_transition r rest ttype tdur

/-- `VideoProcessor.combine_videos_with_transitions`
(`processor.py`, lines 348-416): no clips is an error, a single clip is
copied to the output unchanged, otherwise a sequential pairwise reduction
with transitions. -/
def combine_videos_with_transitions
    (add_transition : Clip → Clip → String → ℚ → Except String Clip)
    (video_paths : List Clip) (transition_type : String)
    (transition_duration : ℚ) : Except String Clip :=
  match video_paths with
  | [] => .error "No videos provided"
  | [c] => .ok c
  | c :: rest => combineLoop add_transition c rest transition_type transition_duration

/-! ## Workflow link validation (`fix_workflow.py`)

JSON link entries are heterogeneous lists of ints and strings. -/

/-- A JSON scalar inside a link entry. -/
inductive LVal where
  | i (n : Int)
  | s (st : String)
  deriving DecidableEq, Repr

/-- One entry of the template's `links` array. -/
abbrev Link := List LVal

/-- Python's `x in node_ids` where `node_ids` is the list of integer node
ids: an int matches by equality, a string never matches an int id. -/
def lvalMemIds : LVal → List Int → Bool
  | .i n, ids => ids.contains n
  | .s _, _ => false

/-- The link-validation loop of `fix_workflow_file`
(`fix_workflow.py`, lines 83-99).  A link of fewer than 6 elements is
skipped (the `if len(link) >= 6` guard); a link of exactly 6 elements is
unpacked and kept iff both its origin and target node ids exist (a warning
is printed otherwise); a link of more than 6 elements makes the tuple
unpacking raise `ValueError`, which the enclosing `try` of
`fix_workflow_file` turns into failure of the whole fix. -/
def validateLinks (ids : List Int) : List Link → Except String (List Link)
  | [] => .ok []
  | link :: rest =>
    if link.length < 6 then validateLinks ids rest
    else
      match link with
      | [_, origin, _, target, _, _] =>
          if lvalMemIds origin ids && lvalMemIds target ids then
            match validateLinks ids rest with
            | .error e => .error e
            | .ok kept => .ok (link :: kept)
          else
            validateLinks ids rest
      | _ => .error "too many values to unpack (expected 6)"

/-- Whether a link's origin (index 1) and target (index 3) node ids both
occur among the template's node ids. -/
def linkEndpointsOk (ids : List Int) (link : Link) : Bool :=
  match link.get? 1, link.get? 3 with
  | some o, some t => lvalMemIds o ids && lvalMemIds t ids
  | _, _ => false

/-! ## Scene-count derivation (`video_generator.py`, lines 181-206) -/

/-- Python's `round(n / d)` for non-negative `n` and positive `d`
(round-half-to-even; exact because `n/d` is a rational whose half-way
cases `2*(n mod d) = d` are represented exactly). -/
def pyRoundDiv (n d : Nat) : Nat :=
  let q := n / d
  let r := n % d
  if 2 * r < d then q
  else if d < 2 * r then q + 1
  else if q % 2 = 0 then q else q + 1

/-- The duration metadata of a song: `none` when the `"duration"` key is
absent, `some none` when parsing `minutes:seconds` raises, and
`some (some (minutes, seconds))` on a successful parse. -/
def DurationMeta := Option (Option (Nat × Nat))

/-- Scene-count determination (`video_generator.py`, lines 181-206): an
explicit `scene_count` wins; otherwise the duration-derived count
`max(4, min(12, round(seconds/20)))`; otherwise, with non-empty lyrics,
`max(4, min(12, round(lines/6)))`; otherwise the default 5. -/
def determineSceneCount (scene_count : Option Nat) (duration : DurationMeta)
    (lyricsLineCount : Nat) : Nat :=
  match scene_count with
  | some n => n
  | none =>
    match duration with
    | some (some (minutes, seconds)) =>
        max 4 (min 12 (pyRoundDiv (minutes * 60 + seconds) 20))
    | _ =>
        if lyricsLineCount ≠ 0 then max 4 (min 12 (pyRoundDiv lyricsLineCount 6))
        else 5

/-! ## Render-backend poll loop (`interface.py`, `wait_for_prompt`)

Wall-clock time is modelled in whole seconds; the backend's responses are
a function of the elapsed time at which they are observed. -/

/-- One observation of the backend's `/prompt/status` endpoint. -/
inductive StatusObs where
  /-- non-200 status code: logged, sleep, retry. -/
  | httpError
  /-- an `"error"` key in the payload: the loop returns failure. -/
  | errorField (msg : String)
  /-- normal payload: whether `executing.prompt_id` / `pending.prompt_id`
  equals our prompt id. -/
  | st (executingOurs pendingOurs : Bool)
  deriving DecidableEq, Repr

/-- The remote backend as observed by the poll loop. -/
structure Backend where
  status : Nat → StatusObs
  /-- whether `prompt_id in history` at the given elapsed time. -/
  inHistory : Nat → Bool
  /-- whether `get_prompt_outputs(history, prompt_id)` is non-empty. -/
  outputsNonempty : Nat → Bool

/-- Terminal outcome of `wait_for_prompt`. -/
inductive WaitResult where
  | completed
  | backendError (msg : String)
  | timeout
  deriving DecidableEq, Repr

/-- Outcome of `wait_for_prompt` together with the loop's observable
effects: the number of extended waits (`time.sleep(check_interval * 2)`)
and the number of loop iterations executed. -/
structure WaitOut where
  result : WaitResult
  extendedWaits : Nat
  iterations : Nat
  deriving DecidableEq, Repr

/-- The `while time.time() - start_time < timeout` loop of
`wait_for_prompt` (`interface.py`, lines 274-337), by recursion on a fuel
argument.  Each iteration advances `elapsed` by at least `check_interval`
(the ambiguous-state path by `3 * check_interval`), so fuel `timeout`
never runs out when `check_interval ≥ 1`; on exhausted fuel the loop's
timeout result is returned. -/
def waitLoop (b : Backend) (timeout check_interval : Nat) :
    Nat → Nat → Nat → Nat → WaitOut
  | 0, _, ew, it => ⟨.timeout, ew, it⟩
  | fuel + 1, elapsed, ew, it =>
    if elapsed < timeout then
      match b.status elapsed with
      | .httpError =>
          waitLoop b timeout check_interval fuel (elapsed + check_interval) ew (it + 1)
      | .errorField msg => ⟨.backendError msg, ew, it + 1⟩
      | .st executingOurs pendingOurs =>
        if executingOurs then
          waitLoop b timeout check_interval fuel (elapsed + check_interval) ew (it + 1)
        else if b.inHistory elapsed && b.outputsNonempty elapsed then
          ⟨.completed, ew, it + 1⟩
        else if pendingOurs then
          waitLoop b timeout check_interval fuel (elapsed + check_interval) ew (it + 1)
        else if !b.inHistory elapsed then
          -- one extended wait (`time.sleep(check_interval * 2)`), then the
          -- history is fetched again (lines 316-328)
          if b.inHistory (elapsed + 2 * check_interval)
              && b.outputsNonempty (elapsed + 2 * check_interval) then
            ⟨.completed, ew + 1, it + 1⟩
          else
            waitLoop b timeout check_interval fuel
              (elapsed + 2 * check_interval + check_interval) (ew + 1) (it + 1)
        else
          waitLoop b timeout check_interval fuel (elapsed + check_interval) ew (it + 1)
    else ⟨.timeout, ew, it⟩

/-- `ComfyUIInterface.wait_for_prompt` (`interface.py`, lines 259-337). -/
def wait_for_prompt (b : Backend) (timeout check_interval : Nat) : WaitOut :=
  waitLoop b timeout check_interval timeout 0 0 0

/-- The tail of `generate_scene` after queueing (`interface.py`, lines
528-539): wait for the prompt; on failure return without downloading; on
success call `download_output_images` once.  The second component counts
the `download_output_images` calls. -/
def awaitThenFetch (b : Backend) (timeout check_interval : Nat) : WaitOut × Nat :=
  let w := wait_for_prompt b timeout check_interval
  match w.result with
  | .completed => (w, 1)
  | _ => (w, 0)

/-- A handle that is in an ambiguous state at every poll: the backend
reports it neither executing nor queued, and it never appears in the
history. -/
def ambiguousBackend : Backend :=
  { status := fun _ => .st false false
    inHistory := fun _ => false
    outputsNonempty := fun _ => false }

/-! ## Workflow patcher (`interface.py`, `update_workflow`)

A UI-format workflow is a dict with a `nodes` list; each node has an
integer id, a type string, an `inputs` member that is either absent, an
API-format dict of parameter values, or a UI-format list of named slots,
and an optional `widgets_values` list. -/

/-- A JSON value stored in a node parameter slot. -/
inductive PyVal where
  | vInt (n : Int)
  | vStr (s : String)
  deriving DecidableEq, Repr

/-- The `inputs` member of a node. -/
inductive Inputs where
  /-- no `"inputs"` key. -/
  | absent
  /-- API-format: a dict mapping parameter names to values. -/
  | dict (kvs : List (String × PyVal))
  /-- UI-format: a list of slot dicts, each carrying a `"name"`. -/
  | slots (names : List String)
  deriving DecidableEq, Repr

structure WNode where
  id : Int
  type : String
  inputs : Inputs
  widgets : Option (List PyVal)
  deriving DecidableEq, Repr

structure Workflow where
  nodes : List WNode
  deriving DecidableEq, Repr

/-- `param in node["inputs"]` for a dict-format `inputs`. -/
def dictHasKey (kvs : List (String × PyVal)) (p : String) : Bool :=
  kvs.any (fun kv => kv.1 == p)

/-- `node["inputs"][param] = value` for a dict-format `inputs`
(dict keys are unique, so updating every matching entry is the same as
updating the one entry). -/
def dictSet (kvs : List (String × PyVal)) (p : String) (v : PyVal) :
    List (String × PyVal) :=
  kvs.map (fun kv => if kv.1 == p then (kv.1, v) else kv)

/-- The "special handling for specific node types" fallback of
`update_workflow` (`interface.py`, lines 136-151), reached when no widget
index was found for the parameter. -/
def applySpecialCase (n : WNode) (param : String) (v : PyVal) (ws : List PyVal) : WNode :=
  if n.type == "CLIPTextEncode" && param == "text" && decide (0 < ws.length) then
    { n with widgets := some (ws.set 0 v) }
  else if n.type == "SaveImage" then
    if param == "filename_prefix" && decide (1 < ws.length) then
      { n with widgets := some (ws.set 1 v) }
    else if param == "output_dir" && decide (0 < ws.length) then
      { n with widgets := some (ws.set 0 v) }
    else n
  else n

/-- Patch one parameter on the matched node (`interface.py`, lines
118-153).  Returns `none` when the Python code raises for this key at
this node: iterating a **non-empty** dict-format `inputs` with
`enumerate` yields key strings, and `input_param.get("name")` raises
`AttributeError`, which the per-key `except` catches, abandoning the key
(no field was assigned before the raise). -/
def patchNode (n : WNode) (param : String) (v : PyVal) : Option WNode :=
  match n.inputs with
  | .dict kvs =>
      if dictHasKey kvs param then
        some { n with inputs := .dict (dictSet kvs param v) }
      else
        match n.widgets with
        | some ws =>
            if kvs.isEmpty then some (applySpecialCase n param v ws)
            else none
        | none => some n
  | .slots names =>
      match n.widgets with
      | some ws =>
          match names.findIdx? (fun s => s == param) with
          | some i =>
              if i < ws.length then some { n with widgets := some (ws.set i v) }
              else some (applySpecialCase n param v ws)
          | none => some (applySpecialCase n param v ws)
      | none => some n
  | .absent =>
      match n.widgets with
      | some ws => some (applySpecialCase n param v ws)
      | none => some n

/-- The `for node in updated_workflow["nodes"]` search (`interface.py`,
lines 116-159): patch the first node whose stringified id equals the
key's node-id part, leaving the rest untouched (`break` after the first
match; a raising patch leaves the node unchanged). -/
def patchFirst : List WNode → String → String → PyVal → List WNode
  | [], _, _, _ => []
  | n :: rest, nid, param, v =>
      if toString n.id == nid then
        (match patchNode n param v with
         | some n' => n'
         | none => n) :: rest
      else
        n :: patchFirst rest nid param v

/-- Python's `key.split('.')`, written over the character list: split at
every `'.'`, keeping empty pieces (`"a.".split('.') == ['a', '']`,
`"".split('.') == ['']`). -/
def splitDotAux : List Char → List Char → List String
  | [], acc => [String.mk acc.reverse]
  | c :: cs, acc =>
      if c = '.' then String.mk acc.reverse :: splitDotAux cs []
      else splitDotAux cs (c :: acc)

def splitDot (s : String) : List String :=
  splitDotAux s.data []

/-- Apply one `"node_id.parameter"` update key (`interface.py`, lines
108-161).  A key that does not split into exactly two parts raises
`ValueError` in the `node_id, param = key.split('.')` unpacking, which the
per-key `except` catches (the key is skipped). -/
def applyKey (w : Workflow) (key : String) (v : PyVal) : Workflow :=
  match splitDot key with
  | [nid, param] => { w with nodes := patchFirst w.nodes nid param v }
  | _ => w

/-- `ComfyUIInterface.update_workflow` (`interface.py`, lines 91-163):
deep-copy the workflow, then apply each update key in order. -/
def update_workflow (w : Workflow) (updates : List (String × PyVal)) : Workflow :=
  updates.foldl (fun acc kv => applyKey acc kv.1 kv.2) w

/-! ## Seed randomization in `generate_scene` (`interface.py`, lines 510-516) -/

/-- Randomize the seed of one node if it is a `KSampler` with a non-empty
`widgets_values` list; `draw i` is the `random.randint(0, 9999999999)`
result for the node at position `i`. -/
def seedNode (draw : Nat → Int) (i : Nat) (n : WNode) : WNode :=
  if n.type == "KSampler" then
    match n.widgets with
    | some ws => if 0 < ws.length then { n with widgets := some (ws.set 0 (.vInt (draw i))) } else n
    | none => n
  else n

def randomizeSeedsFrom (draw : Nat → Int) : Nat → List WNode → List WNode
  | _, [] => []
  | i, n :: rest => seedNode draw i n :: randomizeSeedsFrom draw (i + 1) rest

/-- The `for node in updated_workflow["nodes"]` seed loop of
`generate_scene`: overwrite `widgets_values[0]` of every `KSampler` node
with a fresh random draw. -/
def randomizeSeeds (w : Workflow) (draw : Nat → Int) : Workflow :=
  ⟨randomizeSeedsFrom draw 0 w.nodes⟩

/-- Whether node `j` of the workflow is a `KSampler` carrying a seed
parameter (non-empty `widgets_values`). -/
def seedNodeAt (w : Workflow) (j : Nat) : Bool :=
  match w.nodes.get? j with
  | some nj =>
      nj.type == "KSampler"
        && (match nj.widgets with
            | some ws => !ws.isEmpty
            | none => false)
  | none => false

/-! ## Aliasing model of `update_workflow` (frame effect)

In Python the workflow is an object graph: the `nodes` list holds
references into a heap of node objects, `copy.deepcopy` allocates fresh
objects, and the patch loop mutates node objects in place.  A heap is a
function from addresses to node values together with an allocation
counter; a workflow value is read back from a reference list.  (JSON-loaded
workflows never alias a node object twice, so reference lists are assumed
duplicate-free where it matters.) -/

structure Mem where
  heap : Nat → WNode
  next : Nat

/-- Mutate one node object in place. -/
def writeMem (m : Mem) (a : Nat) (n : WNode) : Mem :=
  { m with heap := fun x => if x = a then n else m.heap x }

/-- `copy.deepcopy` of the nodes list: allocate one fresh object per
entry, copying the pointed-to node value. -/
def deepcopyNodes : Mem → List Nat → Mem × List Nat
  | m, [] => (m, [])
  | m, a :: rest =>
      let m1 : Mem :=
        { heap := fun x => if x = m.next then m.heap a else m.heap x
          next := m.next + 1 }
      let (m2, rest') := deepcopyNodes m1 rest
      (m2, m.next :: rest')

/-- Heap-level `patchFirst`: find the first referenced object whose
stringified id matches and mutate it in place (`break` afterwards). -/
def patchFirstMem (m : Mem) : List Nat → String → String → PyVal → Mem
  | [], _, _, _ => m
  | a :: rest, nid, param, v =>
      if toString (m.heap a).id == nid then
        match patchNode (m.heap a) param v with
        | some n' => writeMem m a n'
        | none => m
      else patchFirstMem m rest nid param v

/-- Heap-level `applyKey`. -/
def applyKeyMem (m : Mem) (addrs : List Nat) (key : String) (v : PyVal) : Mem :=
  match splitDot key with
  | [nid, param] => patchFirstMem m addrs nid param v
  | _ => m

/-- `update_workflow` at the heap level (`interface.py`, lines 106-163):
`updated_workflow = copy.deepcopy(workflow)`, then each update key mutates
the copy's node objects in place; the copy's references are returned. -/
def update_workflow_mem (m : Mem) (wfAddrs : List Nat)
    (updates : List (String × PyVal)) : Mem × List Nat :=
  let (m1, copyAddrs) := deepcopyNodes m wfAddrs
  (updates.foldl (fun mm kv => applyKeyMem mm copyAddrs kv.1 kv.2) m1, copyAddrs)

/-- Read a workflow value back from its node references. -/
def readW (m : Mem) (addrs : List Nat) : Workflow :=
  ⟨addrs.map m.heap⟩

/-! ## Trace predicates for the progress invariant -/

/-- Along a trace from `s`, every step keeps `overall_progress` from
decreasing, and every intermediate state that claims `status = completed`
shows `overall_progress = 100`. -/
def Steps : TrackerJob → List TEvent → Prop
  | s, [] => s.status = "completed" → s.overallProgress = 100
  | s, e :: es =>
      (s.status = "completed" → s.overallProgress = 100)
      ∧ s.overallProgress ≤ (step s e).overallProgress
      ∧ Steps (step s e) es

/-- The tracker calls common to every job that gets past the download and
scene-planning stages, ending with the `update_stage "scene_generation"`
call. -/
def preEvents (n : Nat) : List TEvent :=
  [.updateStage "download" "Downloading audio from URL",
   .updateStage "download" "Downloading audio from URL",
   .updateStage "lyrics" "Extracting lyrics from audio",
   .setTotalScenes n,
   .updateStage "scene_planning" "Creating scene descriptions from lyrics",
   .updateJobSceneDescriptions,
   .updateStage "scene_generation" "Generating scene images"]

/-- Stored job state right after entering `scene_generation`. -/
def state20 (n : Nat) : TrackerJob :=
  { totalScenes := n
    processedScenes := 0
    currentStage := "Generating scene images"
    stageName := "scene_generation"
    stageProgress := 0
    overallProgress := 20
    status := "running"
    error := none }

/-- A template with a positive-prompt text node and a `KSampler` node
whose first widget value is the seed parameter. -/
def c8Workflow : Workflow :=
  ⟨[{ id := 1, type := "CLIPTextEncode", inputs := .absent,
      widgets := some [.vStr "a scenic view"] },
    { id := 3, type := "KSampler", inputs := .absent,
      widgets := some [.vInt 42, .vStr "euler"] }]⟩

/-- Logical-key updates patching the prompt text of node 1. -/
def c8Updates : List (String × PyVal) :=
  [("1.text", .vStr "new prompt, cinematic style")]

/-- A concrete two-object heap holding the nodes of `c8Workflow` at
addresses 0 and 1. -/
def c9Mem : Mem :=
  { heap := fun a =>
      if a = 0 then
        { id := 1, type := "CLIPTextEncode", inputs := .absent,
          widgets := some [.vStr "a scenic view"] }
      else
        { id := 3, type := "KSampler", inputs := .absent,
          widgets := some [.vInt 42, .vStr "euler"] }
    next := 2 }

/-- 5 scenes requested, the render backend succeeds for 4 and fails for 1. -/
def c2ScenarioA : Scenario :=
  { downloadError := none
    sceneCount := 5
    genResults := [⟨"1", true⟩, ⟨"2", true⟩, ⟨"3", false⟩, ⟨"4", true⟩, ⟨"5", true⟩]
    videoOk := [true, true, true, true]
    combineOk := true
    audioOk := true }

/-- 5 scenes requested, the render backend succeeds for only 1. -/
def c2ScenarioB : Scenario :=
  { downloadError := none
    sceneCount := 5
    genResults := [⟨"1", false⟩, ⟨"2", false⟩, ⟨"3", false⟩, ⟨"4", true⟩, ⟨"5", false⟩]
    videoOk := []
    combineOk := true
    audioOk := true }

/-- Job state after `update_scene_progress(job, 0, _)` in the
`scene_generation` stage with 2 total scenes. -/
def c3State : TrackerJob :=
  step (step (createJob 2) (.updateStage "scene_generation" "Generating scene images"))
    (.updateSceneProgress 0)

/-- A fully successful 2-scene job: audio downloads, both scene images
generate, both scene videos render, combining and audio muxing succeed. -/
def c1Scenario : Scenario :=
  { downloadError := none
    sceneCount := 2
    genResults := [⟨"1", true⟩, ⟨"2", true⟩]
    videoOk := [true, true]
    combineOk := true
    audioOk := true }

theorem runEnd_nil (s : TrackerJob) : runEnd s [] = s := rfl

theorem runEnd_cons (s : TrackerJob) (e : TEvent) (es : List TEvent) :
    runEnd s (e :: es) = runEnd (step s e) es := rfl

theorem runEnd_append (s : TrackerJob) (l₁ l₂ : List TEvent) :
    runEnd s (l₁ ++ l₂) = runEnd (runEnd s l₁) l₂ :=
  List.foldl_append ..

theorem steps_append {l₁ l₂ : List TEvent} {s : TrackerJob} :
    Steps s (l₁ ++ l₂) ↔ Steps s l₁ ∧ Steps (runEnd s l₁) l₂ := by
  induction l₁ generalizing s with
  | nil =>
      simp only [List.nil_append, runEnd_nil, Steps]
      constructor
      · intro h
        exact ⟨by cases l₂ with
          | nil => exact h
          | cons e es => exact h.1, h⟩
      · exact fun h => h.2
  | cons e es ih =>
      simp only [List.cons_append, Steps, runEnd_cons, List.append_eq, ih, and_assoc]

theorem steps_chain {s : TrackerJob} {l : List TEvent} (h : Steps s l) :
    List.Chain' (fun a b => a.overallProgress ≤ b.overallProgress)
      (runStates s l) := by
  induction l generalizing s with
  | nil => simp [runStates]
  | cons e es ih =>
      rw [runStates, List.chain'_cons']
      refine ⟨fun y hy => ?_, ih h.2.2⟩
      cases es with
      | nil => simp only [runStates, List.head?_cons, Option.mem_def,
          Option.some.injEq] at hy; exact hy ▸ h.2.1
      | cons f fs => simp only [runStates, List.head?_cons, Option.mem_def,
          Option.some.injEq] at hy; exact hy ▸ h.2.1

theorem steps_completed {s : TrackerJob} {l : List TEvent} (h : Steps s l) :
    ∀ st ∈ runStates s l, st.status = "completed" → st.overallProgress = 100 := by
  induction l generalizing s with
  | nil =>
      intro st hst
      simp only [runStates, List.mem_singleton] at hst
      exact hst ▸ h
  | cons e es ih =>
      intro st hst
      rw [runStates, List.mem_cons] at hst
      rcases hst with rfl | hst
      · exact h.1
      · exact ih h.2.2 st hst

theorem step_sceneProgress_stageName (s : TrackerJob) (i : Nat) :
    (step s (.updateSceneProgress i)).stageName = s.stageName := rfl

theorem step_sceneProgress_status (s : TrackerJob) (i : Nat) :
    (step s (.updateSceneProgress i)).status = s.status := rfl

theorem step_sceneProgress_total (s : TrackerJob) (i : Nat) :
    (step s (.updateSceneProgress i)).totalScenes = s.totalScenes := rfl

/-- In the `video_creation` stage, `update_scene_progress` sets
`overall_progress` to `min 100 (50 + 25*(i+1)/max 1 total)`
(`progress_tracker.py`, lines 234-240, simplifying `25*(sp/100)` with
`sp = (i+1)/max 1 total * 100`). -/
theorem step_sceneProgress_overall_vc (s : TrackerJob) (i : Nat)
    (h : s.stageName = "video_creation") :
    (step s (.updateSceneProgress i)).overallProgress
      = min 100 (50 + 25 * ((i : ℚ) + 1) / ((max 1 s.totalScenes : ℕ) : ℚ)) := by
  show (if s.stageName == "scene_generation"
        then min 100 (20 + (50 - 20) * ((i + 1 : ℚ) / (max 1 s.totalScenes : ℕ) * 100) / 100)
        else if s.stageName == "video_creation"
        then min 100 (50 + (75 - 50) * ((i + 1 : ℚ) / (max 1 s.totalScenes : ℕ) * 100) / 100)
        else s.overallProgress) = _
  rw [h]
  simp only [show (("video_creation" : String) == "scene_generation") = false from rfl,
    show (("video_creation" : String) == "video_creation") = true from rfl,
    Bool.false_eq_true, if_false, if_true]
  ring_nf

/-- Invariant of the per-scene video loop: each fired
`update_scene_progress` keeps `overall_progress` inside the 50-75 band and
non-decreasing, and the loop preserves stage, status and scene total. -/
theorem sceneLoop_props :
    ∀ (oks : List Bool) (i : Nat) (s : TrackerJob),
      s.stageName = "video_creation" → s.status = "running" →
      s.overallProgress ≤ min 100 (50 + 25 * (i : ℚ) / ((max 1 s.totalScenes : ℕ) : ℚ)) →
      Steps s (sceneLoopEvents i oks)
      ∧ (runEnd s (sceneLoopEvents i oks)).stageName = "video_creation"
      ∧ (runEnd s (sceneLoopEvents i oks)).status = "running"
      ∧ (runEnd s (sceneLoopEvents i oks)).totalScenes = s.totalScenes
      ∧ (runEnd s (sceneLoopEvents i oks)).overallProgress
          ≤ min 100 (50 + 25 * ((i + oks.length : ℕ) : ℚ) / ((max 1 s.totalScenes : ℕ) : ℚ)) := by
  intro oks
  induction oks with
  | nil =>
      intro i s h1 h2 h3
      refine ⟨?_, h1, h2, rfl, ?_⟩
      · simp only [sceneLoopEvents, Steps, h2]
        intro hcon; simp at hcon
      · simpa using h3
  | cons ok rest ih =>
      intro i s h1 h2 h3
      have hm : (0 : ℚ) < ((max 1 s.totalScenes : ℕ) : ℚ) := by
        have h1le : (1 : ℕ) ≤ max 1 s.totalScenes := le_max_left _ _
        exact_mod_cast Nat.lt_of_lt_of_le Nat.zero_lt_one h1le
      have hstep : min 100 (50 + 25 * (i : ℚ) / ((max 1 s.totalScenes : ℕ) : ℚ))
          ≤ min 100 (50 + 25 * ((i : ℚ) + 1) / ((max 1 s.totalScenes : ℕ) : ℚ)) := by
        refine min_le_min le_rfl (add_le_add_left ?_ _)
        refine (div_le_div_iff_of_pos_right hm).mpr ?_
        linarith
      cases ok with
      | false =>
          simp only [sceneLoopEvents, List.nil_append]
          have hres := ih (i + 1) s h1 h2
            (le_trans h3 (by exact_mod_cast hstep))
          refine ⟨hres.1, hres.2.1, hres.2.2.1, hres.2.2.2.1, ?_⟩
          have hb := hres.2.2.2.2
          have hcast : (i + 1 + rest.length) = (i + (rest.length + 1)) := by omega
          rw [hcast] at hb
          simpa using hb
      | true =>
          simp only [sceneLoopEvents, if_true, List.singleton_append]
          have hsn := step_sceneProgress_stageName s i
          have hss := step_sceneProgress_status s i
          have hst := step_sceneProgress_total s i
          have hov := step_sceneProgress_overall_vc s i h1
          have hle : s.overallProgress ≤ (step s (.updateSceneProgress i)).overallProgress := by
            rw [hov]; exact le_trans h3 hstep
          have hrest := ih (i + 1) (step s (.updateSceneProgress i))
            (hsn.trans h1) (hss.trans h2)
            (by rw [hov, hst]; exact_mod_cast le_refl _)
          rw [runEnd_cons]
          refine ⟨⟨fun hcon => ?_, hle, hrest.1⟩, hrest.2.1, hrest.2.2.1,
            hrest.2.2.2.1.trans hst, ?_⟩
          · rw [h2] at hcon; simp at hcon
          · have hb := hrest.2.2.2.2
            rw [hst] at hb
            have hcast : (i + 1 + rest.length) = (i + (rest.length + 1)) := by omega
            rw [hcast] at hb
            simpa using hb

theorem step_fail_overall (s : TrackerJob) (m : String) :
    (step s (.failJob m)).overallProgress = s.overallProgress := rfl

theorem step_fail_status (s : TrackerJob) (m : String) :
    (step s (.failJob m)).status = "failed" := rfl

theorem step_trans_overall (s : TrackerJob) (i t : Nat) :
    (step s (.updateTransitionProgress i t)).overallProgress
      = min 100 (75 + (90 - 75) * ((i + 1 : ℚ) / (max 1 t : ℕ) * 100) / 100) := rfl

theorem step_trans_status (s : TrackerJob) (i t : Nat) :
    (step s (.updateTransitionProgress i t)).status = s.status := rfl

theorem step_audio_overall (s : TrackerJob) (p : ℚ) :
    (step s (.updateAudioProgress p)).overallProgress
      = min 100 (90 + (100 - 90) * p / 100) := rfl

theorem step_audio_status (s : TrackerJob) (p : ℚ) :
    (step s (.updateAudioProgress p)).status = s.status := rfl

theorem pre_end (n : Nat) : runEnd (createJob 0) (preEvents n) = state20 n := rfl

theorem pre_steps (n : Nat) : Steps (createJob 0) (preEvents n) := by
  simp [preEvents, Steps, step, stageWeight, createJob]
  norm_num

/-- Master trace lemma: every orchestrated job run yields a `Steps` trace
(non-decreasing `overall_progress`, and `status = completed` only with
`overall_progress = 100`).  The hypothesis `videoOk.length ≤ sceneCount`
records that the per-scene video loop ranges over at most the planned
number of scenes, which the worker guarantees by construction. -/
theorem jobEvents_shape (sc : Scenario) (hdl : sc.downloadError = none) :
    jobEvents sc
      = preEvents sc.sceneCount
        ++ (match sceneHandoff sc.genResults with
            | .error msg => [TEvent.failJob msg]
            | .ok _ =>
              TEvent.updateStage "video_creation" "Creating video from scenes and audio"
                :: sceneLoopEvents 0 sc.videoOk
                ++ if sc.videoOk.count true == 0 then
                     [TEvent.failJob "Failed to create any scene videos"]
                   else if !sc.combineOk then
                     [TEvent.failJob "Error combining scenes: combine error"]
                   else
                     TEvent.updateTransitionProgress (sc.videoOk.count true - 1)
                       (sc.videoOk.count true - 1)
                       :: if !sc.audioOk then
                            [TEvent.failJob "Error adding audio: audio error"]
                          else
                            [TEvent.updateAudioProgress 100, TEvent.completeJob]) := by
  simp only [jobEvents, workerEvents, hdl, preEvents]
  cases sceneHandoff sc.genResults <;> rfl

theorem jobTrace_steps (sc : Scenario) (hlen : sc.videoOk.length ≤ sc.sceneCount) :
    Steps (createJob 0) (jobEvents sc) := by
  cases hdl : sc.downloadError with
  | some e =>
      simp [jobEvents, workerEvents, hdl, Steps, step, stageWeight, createJob]
  | none =>
      rw [jobEvents_shape sc hdl]
      refine steps_append.mpr ⟨pre_steps _, ?_⟩
      rw [pre_end]
      cases hh : sceneHandoff sc.genResults with
      | error msg =>
          simp [Steps, step, state20]
      | ok succ =>
          refine ⟨by simp [state20], ?_, ?_⟩
          · show (20 : ℚ) ≤ 50
            norm_num
          · set s50 := step (state20 sc.sceneCount)
              (.updateStage "video_creation" "Creating video from scenes and audio") with hs50
            have h50fields : s50.stageName = "video_creation" ∧ s50.status = "running"
                ∧ s50.totalScenes = sc.sceneCount ∧ s50.overallProgress = 50 := by
              rw [hs50]
              refine ⟨rfl, rfl, rfl, ?_⟩
              simp [step, state20, stageWeight]
            have hloop := sceneLoop_props sc.videoOk 0 s50 h50fields.1 h50fields.2.1
              (by rw [h50fields.2.2.2]; norm_num)
            refine steps_append.mpr ⟨hloop.1, ?_⟩
            set sEnd := runEnd s50 (sceneLoopEvents 0 sc.videoOk) with hsEnd
            have hm : (0 : ℚ) < ((max 1 sc.sceneCount : ℕ) : ℚ) := by
              have h1le : (1 : ℕ) ≤ max 1 sc.sceneCount := le_max_left _ _
              exact_mod_cast Nat.lt_of_lt_of_le Nat.zero_lt_one h1le
            have hEnd75 : sEnd.overallProgress ≤ 75 := by
              have hb := hloop.2.2.2.2
              rw [h50fields.2.2.1] at hb
              have hlm : ((sc.videoOk.length : ℕ) : ℚ) ≤ ((max 1 sc.sceneCount : ℕ) : ℚ) := by
                exact_mod_cast le_trans hlen (le_max_right 1 _)
              have hdiv : 25 * ((sc.videoOk.length : ℕ) : ℚ)
                  / ((max 1 sc.sceneCount : ℕ) : ℚ) ≤ 25 := by
                rw [div_le_iff₀ hm]
                nlinarith [hm.le]
              calc sEnd.overallProgress
                  ≤ min 100 (50 + 25 * ((0 + sc.videoOk.length : ℕ) : ℚ)
                      / ((max 1 sc.sceneCount : ℕ) : ℚ)) := hb
                _ ≤ 50 + 25 * ((sc.videoOk.length : ℕ) : ℚ)
                      / ((max 1 sc.sceneCount : ℕ) : ℚ) := by
                      rw [Nat.zero_add]
                      exact min_le_right _ _
                _ ≤ 75 := by linarith
            have hEndStatus : sEnd.status = "running" := hloop.2.2.1
            rcases Nat.eq_zero_or_pos (sc.videoOk.count true) with hc0 | hcpos
            · simp only [hc0, Nat.zero_eq, beq_self_eq_true, if_true]
              exact ⟨by rw [hEndStatus]; intro hcon; simp at hcon,
                by rw [step_fail_overall],
                by rw [Steps, step_fail_status]; intro hcon; simp at hcon⟩
            · have hc0f : (sc.videoOk.count true == 0) = false := by
                simp only [beq_eq_false_iff_ne, ne_eq]; omega
              rw [hc0f]
              simp only [Bool.false_eq_true, if_false]
              cases hcb : sc.combineOk with
              | false =>
                  simp only [Bool.not_false, if_true]
                  exact ⟨by rw [hEndStatus]; intro hcon; simp at hcon,
                    by rw [step_fail_overall],
                    by rw [Steps, step_fail_status]; intro hcon; simp at hcon⟩
              | true =>
                  simp only [Bool.not_true, Bool.false_eq_true, if_false]
                  set k := sc.videoOk.count true - 1 with hk
                  have htransLe : sEnd.overallProgress
                      ≤ (step sEnd (.updateTransitionProgress k k)).overallProgress := by
                    rw [step_trans_overall]
                    refine le_trans hEnd75 (le_min (by norm_num) ?_)
                    have hkm : (0 : ℚ) < ((max 1 k : ℕ) : ℚ) := by
                      have h1le : (1 : ℕ) ≤ max 1 k := le_max_left _ _
                      exact_mod_cast Nat.lt_of_lt_of_le Nat.zero_lt_one h1le
                    have : (0 : ℚ) ≤ (90 - 75) * ((k + 1 : ℚ) / ((max 1 k : ℕ) : ℚ) * 100) / 100 := by
                      positivity
                    linarith
                  set sT := step sEnd (.updateTransitionProgress k k) with hsT
                  have hTstatus : sT.status = "running" := by
                    rw [hsT, step_trans_status, hEndStatus]
                  have hT100 : sT.overallProgress ≤ 100 := by
                    rw [hsT, step_trans_overall]; exact min_le_left _ _
                  cases hca : sc.audioOk with
                  | false =>
                      simp only [Bool.not_false, if_true]
                      exact ⟨by rw [hEndStatus]; intro hcon; simp at hcon,
                        htransLe,
                        by rw [hTstatus]; intro hcon; simp at hcon,
                        by rw [step_fail_overall],
                        by rw [Steps, step_fail_status]; intro hcon; simp at hcon⟩
                  | true =>
                      simp only [Bool.not_true, Bool.false_eq_true, if_false]
                      have hA : (step sT (.updateAudioProgress 100)).overallProgress = 100 := by
                        rw [step_audio_overall]; norm_num
                      refine ⟨by rw [hEndStatus]; intro hcon; simp at hcon,
                        htransLe,
                        by rw [hTstatus]; intro hcon; simp at hcon,
                        by rw [hA]; exact hT100,
                        ?_, ?_, ?_⟩
                      · rw [step_audio_status, hTstatus]; intro hcon; simp at hcon
                      · rw [hA]
                        show (100 : ℚ) ≤ 100
                        exact le_rfl
                      · exact fun _ => rfl

/-- **C1** (counterexample).  The claim "overall_progress equals 100 if and
only if status equals completed" is false on the code: in a fully
successful 2-scene run, the snapshot taken right after
`update_audio_progress(job_id, 100)` (the 13th snapshot of the lifetime)
already has `overall_progress = 100` while `status` is still `"running"`;
`complete_job` only runs afterwards. -/
theorem c1_overall_100_running_counterexample :
    ((jobSnapshots c1Scenario).getD 12 (createJob 0)).overallProgress = 100
    ∧ ((jobSnapshots c1Scenario).getD 12 (createJob 0)).status = "running" := by
  constructor <;>
    · simp [jobSnapshots, jobEvents, workerEvents, c1Scenario, runStates, step,
        stageWeight, createJob, sceneHandoff, sceneLoopEvents]

/-- **C1** (amended).  For every job the orchestrator drives, the sequence
of tracker snapshots has non-decreasing `overall_progress` over the whole
lifetime, and whenever a snapshot shows `status = "completed"` its
`overall_progress` is 100.  (The converse direction of the original claim
fails: `overall_progress` reaches 100 at the final
`update_audio_progress(100)` call while the status is still `"running"`.)
The hypothesis states that the per-scene video loop handles at most the
planned number of scenes, which holds by construction in the worker. -/
theorem c1_overall_progress_monotone (sc : Scenario)
    (hlen : sc.videoOk.length ≤ sc.sceneCount) :
    List.Chain' (fun a b => a.overallProgress ≤ b.overallProgress) (jobSnapshots sc)
    ∧ ∀ st ∈ jobSnapshots sc, st.status = "completed" → st.overallProgress = 100 := by
  have h := jobTrace_steps sc hlen
  exact ⟨steps_chain h, steps_completed h⟩

theorem self_mem_runStates (s : TrackerJob) (l : List TEvent) : s ∈ runStates s l := by
  cases l <;> simp [runStates]

theorem mem_runStates_cons {st : TrackerJob} (s : TrackerJob) (e : TEvent)
    (es : List TEvent) (h : st ∈ runStates (step s e) es) :
    st ∈ runStates s (e :: es) := by
  rw [runStates]; exact List.mem_cons_of_mem _ h

theorem mem_runStates_append {st : TrackerJob} (s : TrackerJob) (l₁ l₂ : List TEvent)
    (h : st ∈ runStates (runEnd s l₁) l₂) : st ∈ runStates s (l₁ ++ l₂) := by
  induction l₁ generalizing s with
  | nil => simpa [runEnd] using h
  | cons e es ih =>
      rw [List.cons_append, runStates]
      exact List.mem_cons_of_mem _ (ih (step s e) (by rwa [runEnd_cons] at h))

/-- **C2**.  In the `scene_generation` stage, per-scene failures do not
abort the job; when fewer than 2 scenes succeed the worker fails the job
(`Not enough scenes were successfully generated`) and no snapshot of the
lifetime ever shows the `video_creation` stage; with at least 2 successes
the handoff to video creation is exactly the list of successful scenes and
the lifetime contains a `video_creation` snapshot. -/
theorem c2_insufficient_scenes (sc : Scenario) (hdl : sc.downloadError = none) :
    ((sc.genResults.filter (fun r => r.success)).length < 2 →
        sceneHandoff sc.genResults
          = .error ("Not enough scenes were successfully generated (only "
              ++ toString (sc.genResults.filter (fun r => r.success)).length ++ ")")
        ∧ (runEnd (createJob 0) (jobEvents sc)).status = "failed"
        ∧ ∀ st ∈ jobSnapshots sc, st.stageName ≠ "video_creation")
    ∧ (2 ≤ (sc.genResults.filter (fun r => r.success)).length →
        sceneHandoff sc.genResults = .ok (sc.genResults.filter (fun r => r.success))
        ∧ ∃ st ∈ jobSnapshots sc, st.stageName = "video_creation") := by
  constructor
  · intro hlt
    have hherr : sceneHandoff sc.genResults
        = .error ("Not enough scenes were successfully generated (only "
            ++ toString (sc.genResults.filter (fun r => r.success)).length ++ ")") := by
      simp only [sceneHandoff]
      rw [if_pos hlt]
    have hev : jobEvents sc = preEvents sc.sceneCount
        ++ [TEvent.failJob ("Not enough scenes were successfully generated (only "
            ++ toString (sc.genResults.filter (fun r => r.success)).length ++ ")")] := by
      rw [jobEvents_shape sc hdl, hherr]
    refine ⟨hherr, ?_, ?_⟩
    · rw [hev, runEnd_append, pre_end]
      rfl
    · intro st hst
      simp only [jobSnapshots] at hst
      rw [hev] at hst
      simp only [preEvents, List.cons_append, List.nil_append, runStates,
        List.mem_cons, List.not_mem_nil, or_false] at hst
      rcases hst with rfl | rfl | rfl | rfl | rfl | rfl | rfl | rfl | rfl <;>
        simp [step, stageWeight, createJob]
  · intro hge
    have hhok : sceneHandoff sc.genResults
        = .ok (sc.genResults.filter (fun r => r.success)) := by
      simp only [sceneHandoff]
      rw [if_neg (Nat.not_lt.mpr hge)]
    refine ⟨hhok, ?_⟩
    refine ⟨step (state20 sc.sceneCount)
      (.updateStage "video_creation" "Creating video from scenes and audio"), ?_, rfl⟩
    simp only [jobSnapshots]
    rw [jobEvents_shape sc hdl, hhok]
    refine mem_runStates_append (createJob 0) _ _ ?_
    rw [pre_end]
    exact mem_runStates_cons _ _ _ (self_mem_runStates _ _)

/-- **C2** witness: the theorem applied to the two concrete scenarios of
the claim — 5 scenes requested with 4 successes proceeds to
`video_creation` with exactly the 4 successful scenes; with 1 success the
job fails. -/
theorem c2_insufficient_scenes_witness :
    (2 ≤ (c2ScenarioA.genResults.filter (fun r => r.success)).length
      ∧ sceneHandoff c2ScenarioA.genResults
          = .ok [⟨"1", true⟩, ⟨"2", true⟩, ⟨"4", true⟩, ⟨"5", true⟩]
      ∧ ∃ st ∈ jobSnapshots c2ScenarioA, st.stageName = "video_creation")
    ∧ ((c2ScenarioB.genResults.filter (fun r => r.success)).length < 2
      ∧ (runEnd (createJob 0) (jobEvents c2ScenarioB)).status = "failed"
      ∧ ∀ st ∈ jobSnapshots c2ScenarioB, st.stageName ≠ "video_creation") := by
  refine ⟨⟨by decide, ?_, ?_⟩, by decide, ?_, ?_⟩
  · exact ((c2_insufficient_scenes c2ScenarioA rfl).2 (by decide)).1.trans rfl
  · exact ((c2_insufficient_scenes c2ScenarioA rfl).2 (by decide)).2
  · exact ((c2_insufficient_scenes c2ScenarioB rfl).1 (by decide)).2.1
  · exact ((c2_insufficient_scenes c2ScenarioB rfl).1 (by decide)).2.2

/-- Counterpart of `step_sceneProgress_overall_vc` for the
`scene_generation` stage (`progress_tracker.py`, lines 227-233). -/
theorem step_sceneProgress_overall_sg (s : TrackerJob) (i : Nat)
    (h : s.stageName = "scene_generation") :
    (step s (.updateSceneProgress i)).overallProgress
      = min 100 (20 + 30 * ((i : ℚ) + 1) / ((max 1 s.totalScenes : ℕ) : ℚ)) := by
  show (if s.stageName == "scene_generation"
        then min 100 (20 + (50 - 20) * ((i + 1 : ℚ) / (max 1 s.totalScenes : ℕ) * 100) / 100)
        else if s.stageName == "video_creation"
        then min 100 (50 + (75 - 50) * ((i + 1 : ℚ) / (max 1 s.totalScenes : ℕ) * 100) / 100)
        else s.overallProgress) = _
  rw [h]
  simp only [show (("scene_generation" : String) == "scene_generation") = true from rfl,
    if_true]
  ring_nf

/-- **C3** (counterexample).  The claim's formula for the
`scene_generation` band, `15 + (50 - 15) * scenesDone/scenesTotal`, is
false on the code: after `update_scene_progress(job, 0, _)` with 2 total
scenes (scenesDone/scenesTotal = 1/2) the tracker stores
`overall_progress = 35` (the code's band is 20-50), while the claim's
formula gives 32.5. -/
theorem c3_band_counterexample :
    c3State.overallProgress = 35
    ∧ ¬ c3State.overallProgress = 15 + (50 - 15) * (1 / 2 : ℚ) := by
  have h : c3State.overallProgress = 35 := by
    simp [c3State, step, stageWeight, createJob]
    norm_num
  exact ⟨h, by rw [h]; norm_num⟩

/-- **C3** (amended).  Entering a stage sets `overall_progress` to the
fixed stage weight — download 5, lyrics 10, scene_planning 15,
scene_generation 20 (not 15), video_creation 50; during
`scene_generation`, progress updates store
`min 100 (20 + (50-20) * (done/total))` (band 20-50, not 15-50); and the
`video_creation` band 50-100 is split into a 50-75 per-clip sub-band, a
75-90 transition sub-band and a 90-100 audio sub-band, with the formulas
below. -/
theorem c3_progress_bands (s sg vc : TrackerJob) (d : String) (i j t : Nat) (p : ℚ)
    (hsg : sg.stageName = "scene_generation")
    (hvc : vc.stageName = "video_creation") :
    (step s (.updateStage "download" d)).overallProgress = 5
    ∧ (step s (.updateStage "lyrics" d)).overallProgress = 10
    ∧ (step s (.updateStage "scene_planning" d)).overallProgress = 15
    ∧ (step s (.updateStage "scene_generation" d)).overallProgress = 20
    ∧ (step s (.updateStage "video_creation" d)).overallProgress = 50
    ∧ (step sg (.updateSceneProgress i)).overallProgress
        = min 100 (20 + 30 * ((i : ℚ) + 1) / ((max 1 sg.totalScenes : ℕ) : ℚ))
    ∧ (step vc (.updateSceneProgress i)).overallProgress
        = min 100 (50 + 25 * ((i : ℚ) + 1) / ((max 1 vc.totalScenes : ℕ) : ℚ))
    ∧ (step s (.updateTransitionProgress j t)).overallProgress
        = min 100 (75 + 15 * ((j : ℚ) + 1) / ((max 1 t : ℕ) : ℚ))
    ∧ (step s (.updateAudioProgress p)).overallProgress
        = min 100 (90 + 10 * p / 100) := by
  refine ⟨rfl, rfl, rfl, rfl, rfl,
    step_sceneProgress_overall_sg sg i hsg,
    step_sceneProgress_overall_vc vc i hvc, ?_, ?_⟩
  · rw [step_trans_overall]; ring_nf
  · rw [step_audio_overall]; ring_nf

/-- **C3** witness: the amended theorem applied at concrete states, with
the `scene_generation` conjunct spelled out for a 2-scene job. -/
theorem c3_progress_bands_witness :
    (state20 2).stageName = "scene_generation"
    ∧ (step (state20 2)
        (.updateStage "video_creation" "d")).stageName = "video_creation"
    ∧ (step (state20 2) (.updateSceneProgress 0)).overallProgress
        = min 100 (20 + 30 * ((0 : ℚ) + 1) / ((max 1 (state20 2).totalScenes : ℕ) : ℚ)) :=
  ⟨rfl, rfl,
    (c3_progress_bands (createJob 0) (state20 2)
      (step (state20 2) (.updateStage "video_creation" "d"))
      "d" 0 0 1 100 rfl rfl).2.2.2.2.2.1⟩

/-- **C4**.  `combine_videos_with_transitions` on a single clip copies it
to the output unchanged without invoking any transition, for every
transition type and duration and every behaviour of the external pairwise
transition step; on an empty clip list it returns the `NoClips` error
("No videos provided"). -/
theorem c4_compose_single_identity
    (add_transition : Clip → Clip → String → ℚ → Except String Clip)
    (c : Clip) (transition_type : String) (transition_duration : ℚ) :
    combine_videos_with_transitions add_transition [c]
        transition_type transition_duration = .ok c
    ∧ combine_videos_with_transitions add_transition []
        transition_type transition_duration = .error "No videos provided" :=
  ⟨rfl, rfl⟩

/-- **C5** (counterexample).  The claim "keeps exactly the links of length
≥ 6 whose endpoints exist" is false on the code: a 7-element link whose
origin and target both exist is not kept — the tuple unpacking
`link_id, origin, ..., link_type = link` raises `ValueError`, the
exception handler of `fix_workflow_file` catches it, and the whole fix
fails instead of validating the links. -/
theorem c5_long_link_counterexample :
    validateLinks [1, 2] [[.i 5, .i 1, .i 0, .i 2, .i 0, .s "IMAGE", .i 0]]
      = .error "too many values to unpack (expected 6)"
    ∧ ([(.i 5 : LVal), .i 1, .i 0, .i 2, .i 0, .s "IMAGE", .i 0] : Link).length ≥ 6
    ∧ linkEndpointsOk [1, 2] [.i 5, .i 1, .i 0, .i 2, .i 0, .s "IMAGE", .i 0] = true :=
  ⟨rfl, by decide, by decide⟩

/-- **C5** (amended).  For a link list whose entries have at most 6
elements, validation succeeds and keeps exactly the links of length
exactly 6 whose origin and target node ids both occur among the template's
node ids; length-6 links with a missing endpoint are dropped with a
warning, shorter links are dropped silently, and (per the counterexample)
a link longer than 6 elements aborts the whole fix. -/
theorem c5_validate_links (ids : List Int) (links : List Link)
    (h : ∀ l ∈ links, l.length ≤ 6) :
    validateLinks ids links
      = .ok (links.filter (fun l => l.length == 6 && linkEndpointsOk ids l)) := by
  induction links with
  | nil => rfl
  | cons l rest ih =>
      have hl : l.length ≤ 6 := h l (List.mem_cons_self _ _)
      have hrest := ih (fun l' hl' => h l' (List.mem_cons_of_mem _ hl'))
      by_cases hlen : l.length < 6
      · have hne : (l.length == 6 && linkEndpointsOk ids l) = false := by
          have : l.length ≠ 6 := by omega
          simp [this]
        rw [List.filter_cons, hne]
        simp only [validateLinks, if_pos hlen]
        exact hrest
      · have hlen6 : l.length = 6 := by omega
        rcases l with _ | ⟨x0, l⟩; · simp at hlen6
        rcases l with _ | ⟨x1, l⟩; · simp at hlen6
        rcases l with _ | ⟨x2, l⟩; · simp at hlen6
        rcases l with _ | ⟨x3, l⟩; · simp at hlen6
        rcases l with _ | ⟨x4, l⟩; · simp at hlen6
        rcases l with _ | ⟨x5, l⟩; · simp at hlen6
        have hnil : l = [] := by
          simp only [List.length_cons] at hlen6
          exact List.length_eq_zero.mp (by omega)
        subst hnil
        have hep : linkEndpointsOk ids [x0, x1, x2, x3, x4, x5]
            = (lvalMemIds x1 ids && lvalMemIds x3 ids) := rfl
        cases hb : lvalMemIds x1 ids && lvalMemIds x3 ids with
        | true =>
            simp only [validateLinks, hb, if_true, hrest, List.filter_cons, hep,
              List.length_cons, List.length_nil]
            norm_num
        | false =>
            simp only [validateLinks, hb, List.filter_cons, hep,
              List.length_cons, List.length_nil]
            norm_num
            exact hrest

/-- **C5** witness: the amended theorem applied to the claim's concrete
template — link list `[[1, 99, 0, 2, 0, "IMAGE"]]` with node ids `[1, 2]`
(no node 99): the link is dropped and the validated link list is empty. -/
theorem c5_validate_links_witness :
    (∀ l ∈ [[(.i 1 : LVal), .i 99, .i 0, .i 2, .i 0, .s "IMAGE"]], l.length ≤ 6)
    ∧ validateLinks [1, 2] [[.i 1, .i 99, .i 0, .i 2, .i 0, .s "IMAGE"]] = .ok [] := by
  refine ⟨by decide, ?_⟩
  rw [c5_validate_links [1, 2] _ (by decide)]
  rfl

/-- **C10**.  When no explicit scene count is supplied, the derived scene
count always lies between 4 and 12 inclusive: both the duration-derived
count `round(seconds/20)` and the lyrics-derived count `round(lines/6)`
are clamped by `max(4, min(12, _))`, and the final fallback default 5 also
lies in the range. -/
theorem c10_scene_count_bounds (duration : DurationMeta) (lyricsLineCount : Nat)
    (scene_count : Option Nat) (h : scene_count = none) :
    4 ≤ determineSceneCount scene_count duration lyricsLineCount
    ∧ determineSceneCount scene_count duration lyricsLineCount ≤ 12 := by
  subst h
  unfold determineSceneCount
  match duration with
  | some (some (m, s)) =>
      constructor
      · exact le_max_left _ _
      · exact max_le (by norm_num) (min_le_left _ _)
  | some none =>
      by_cases hl : lyricsLineCount ≠ 0 <;>
        simp only [hl, if_true, if_false, ite_not] <;>
        [skip; constructor] <;>
        first
          | exact ⟨le_max_left _ _, max_le (by norm_num) (min_le_left _ _)⟩
          | norm_num
  | none =>
      by_cases hl : lyricsLineCount ≠ 0 <;>
        simp only [hl, if_true, if_false, ite_not] <;>
        [skip; constructor] <;>
        first
          | exact ⟨le_max_left _ _, max_le (by norm_num) (min_le_left _ _)⟩
          | norm_num

/-- **C10** witness: a 3:20 song (200 s) with no explicit count derives
`max(4, min(12, round(200/20))) = 10` scenes, inside the 4-12 range. -/
theorem c10_scene_count_bounds_witness :
    (none : Option Nat) = none
    ∧ (4 ≤ determineSceneCount none (some (some (3, 20))) 0
        ∧ determineSceneCount none (some (some (3, 20))) 0 ≤ 12)
    ∧ determineSceneCount none (some (some (3, 20))) 0 = 10 :=
  ⟨rfl, c10_scene_count_bounds (some (some (3, 20))) 0 none rfl, by decide⟩

/-- **C6**.  `wait_for_prompt` with `timeout = 0` returns the Timeout
error immediately — zero loop iterations, zero waits — for every backend
behaviour (in particular for an always-queued handle), and the
`generate_scene` caller then returns without ever calling
`download_output_images`. -/
theorem c6_timeout_zero_no_fetch (b : Backend) (check_interval : Nat) :
    wait_for_prompt b 0 check_interval = ⟨.timeout, 0, 0⟩
    ∧ (awaitThenFetch b 0 check_interval).2 = 0 :=
  ⟨rfl, rfl⟩

/-- On the always-ambiguous backend every iteration of the poll loop takes
exactly one extended wait and then continues polling; the loop can only
end by timing out. -/
theorem waitLoop_ambiguous_step (timeout check_interval fuel elapsed ew it : Nat)
    (h : elapsed < timeout) :
    waitLoop ambiguousBackend timeout check_interval (fuel + 1) elapsed ew it
      = waitLoop ambiguousBackend timeout check_interval fuel
          (elapsed + 2 * check_interval + check_interval) (ew + 1) (it + 1) := by
  simp [waitLoop, if_pos h, ambiguousBackend]

theorem waitLoop_ambiguous (timeout check_interval : Nat) :
    ∀ (fuel elapsed ew it : Nat), ∃ k,
      waitLoop ambiguousBackend timeout check_interval fuel elapsed ew it
        = ⟨.timeout, ew + k, it + k⟩ := by
  intro fuel
  induction fuel with
  | zero => exact fun elapsed ew it => ⟨0, rfl⟩
  | succ fuel ih =>
      intro elapsed ew it
      by_cases h : elapsed < timeout
      · obtain ⟨k, hk⟩ := ih (elapsed + 2 * check_interval + check_interval)
          (ew + 1) (it + 1)
        refine ⟨k + 1, ?_⟩
        rw [waitLoop_ambiguous_step timeout check_interval fuel elapsed ew it h, hk]
        simp only [WaitOut.mk.injEq, true_and]
        omega
      · exact ⟨0, by simp [waitLoop, if_neg h]⟩

/-- **C7** (counterexample).  The claim "exactly one extended wait, then
SilentFailure" is false on the code: on an always-ambiguous handle with
`timeout = 6` and `check_interval = 1` the loop performs two extended
waits (one per iteration, not one overall), and returns the Timeout error
— `wait_for_prompt` has no silent-failure return value at all, it only
logs a warning and keeps polling. -/
theorem c7_silent_failure_counterexample :
    wait_for_prompt ambiguousBackend 6 1 = ⟨.timeout, 2, 2⟩ ∧ (2 : Nat) ≠ 1 :=
  ⟨rfl, by decide⟩

/-- **C7** (amended).  On an ambiguous handle (neither executing, nor
queued, nor in history) each poll iteration performs exactly one extended
wait (`2 * check_interval`) and re-checks history; if the handle is still
absent the loop logs a warning and continues polling, and the only
terminal outcome is the Timeout error — no `SilentFailure` is ever
declared. -/
theorem c7_ambiguous_extended_waits (timeout check_interval : Nat) :
    (wait_for_prompt ambiguousBackend timeout check_interval).result = .timeout
    ∧ (wait_for_prompt ambiguousBackend timeout check_interval).extendedWaits
        = (wait_for_prompt ambiguousBackend timeout check_interval).iterations := by
  obtain ⟨k, hk⟩ := waitLoop_ambiguous timeout check_interval timeout 0 0 0
  rw [wait_for_prompt, hk]
  exact ⟨rfl, rfl⟩

theorem randomizeSeedsFrom_get? (draw : Nat → Int) :
    ∀ (l : List WNode) (i j : Nat),
      (randomizeSeedsFrom draw i l).get? j
        = (l.get? j).map (fun n => seedNode draw (i + j) n) := by
  intro l
  induction l with
  | nil => intro i j; simp [randomizeSeedsFrom]
  | cons n rest ih =>
      intro i j
      cases j with
      | zero => simp [randomizeSeedsFrom]
      | succ j' =>
          show (randomizeSeedsFrom draw (i + 1) rest).get? j'
            = (rest.get? j').map (fun n => seedNode draw (i + (j' + 1)) n)
          rw [ih (i + 1) j', show i + 1 + j' = i + (j' + 1) from by omega]

/-- **C8** (counterexample).  The claim "patch randomizes the seed, so two
patch calls on the same template with the same updates do not produce
equal patched templates" is false on the code: `update_workflow` never
touches the seed and is deterministic, so on a template containing a
`KSampler` seed parameter two identical calls produce identical patched
templates. -/
theorem c8_patch_deterministic_counterexample :
    seedNodeAt c8Workflow 1 = true
    ∧ update_workflow c8Workflow c8Updates = update_workflow c8Workflow c8Updates :=
  ⟨rfl, rfl⟩

/-- **C8** (amended).  Seed randomization is not part of
`update_workflow`; it happens separately in `generate_scene`, which after
patching overwrites the first widget value of every `KSampler` node with a
fresh `random.randint` draw.  Consequently, for any template whose patched
form has a `KSampler` seed parameter at position `j`, two runs of the
`generate_scene` patch phase whose random draws differ at `j` produce
different workflows. -/
theorem c8_generate_scene_randomizes_seed (w : Workflow)
    (u : List (String × PyVal)) (draw₁ draw₂ : Nat → Int) (j : Nat)
    (hj : seedNodeAt (update_workflow w u) j = true)
    (hd : draw₁ j ≠ draw₂ j) :
    randomizeSeeds (update_workflow w u) draw₁
      ≠ randomizeSeeds (update_workflow w u) draw₂ := by
  intro heq
  unfold seedNodeAt at hj
  cases hng : (update_workflow w u).nodes.get? j with
  | none => rw [hng] at hj; exact absurd hj (by simp)
  | some nj =>
      rw [hng] at hj
      replace hj : (nj.type == "KSampler"
          && (match nj.widgets with
              | some ws => !ws.isEmpty
              | none => false)) = true := hj
      cases hws : nj.widgets with
      | none => rw [hws] at hj; simp at hj
      | some ws =>
          rw [hws] at hj
          simp only [Bool.and_eq_true, beq_iff_eq, Bool.not_eq_true'] at hj
          obtain ⟨htype, hne⟩ := hj
          cases ws with
          | nil => exact absurd hne (by decide)
          | cons w0 ws' =>
              have h1 := congrArg (fun wf => wf.nodes.get? j) heq
              simp only [randomizeSeeds] at h1
              rw [randomizeSeedsFrom_get? draw₁ _ 0 j,
                randomizeSeedsFrom_get? draw₂ _ 0 j, hng] at h1
              simp only [Option.map_some', Option.some.injEq, Nat.zero_add] at h1
              unfold seedNode at h1
              rw [hws] at h1
              simp only [htype, beq_self_eq_true, if_true, List.length_cons,
                Nat.zero_lt_succ, Nat.zero_add] at h1
              have h2 := congrArg WNode.widgets h1
              simp only [List.set_cons_zero, Option.some.injEq,
                List.cons.injEq] at h2
              exact hd (by injection h2.1)

/-- **C8** witness: the amended theorem applied to the concrete template
and updates, with random draws 7 and 8 at the `KSampler` position. -/
theorem c8_generate_scene_randomizes_seed_witness :
    seedNodeAt (update_workflow c8Workflow c8Updates) 1 = true
    ∧ ((fun _ => (7 : Int)) 1 ≠ (fun _ => (8 : Int)) 1)
    ∧ randomizeSeeds (update_workflow c8Workflow c8Updates) (fun _ => 7)
        ≠ randomizeSeeds (update_workflow c8Workflow c8Updates) (fun _ => 8) :=
  ⟨by decide, by decide,
    c8_generate_scene_randomizes_seed c8Workflow c8Updates
      (fun _ => 7) (fun _ => 8) 1 (by decide) (by decide)⟩

/-- `deepcopy` allocates the fresh address range `[next, next+len)`, keeps
every existing object intact, and the copies read back as the originals. -/
theorem deepcopyNodes_spec :
    ∀ (addrs : List Nat) (m : Mem), (∀ a ∈ addrs, a < m.next) →
      (deepcopyNodes m addrs).1.next = m.next + addrs.length
      ∧ (deepcopyNodes m addrs).2 = List.range' m.next addrs.length
      ∧ (∀ x, x < m.next → (deepcopyNodes m addrs).1.heap x = m.heap x)
      ∧ (deepcopyNodes m addrs).2.map (deepcopyNodes m addrs).1.heap
          = addrs.map m.heap := by
  intro addrs
  induction addrs with
  | nil => exact fun m _ => ⟨rfl, rfl, fun x _ => rfl, rfl⟩
  | cons a rest ih =>
      intro m hv
      have ha : a < m.next := hv a (List.mem_cons_self _ _)
      set m1 : Mem :=
        { heap := fun x => if x = m.next then m.heap a else m.heap x
          next := m.next + 1 } with hm1
      have hv1 : ∀ a' ∈ rest, a' < m1.next := fun a' h' =>
        Nat.lt_succ_of_lt (hv a' (List.mem_cons_of_mem _ h'))
      obtain ⟨ihn, ihaddr, ihlow, ihread⟩ := ih m1 hv1
      have hstep : deepcopyNodes m (a :: rest)
          = ((deepcopyNodes m1 rest).1, m.next :: (deepcopyNodes m1 rest).2) := rfl
      refine ⟨?_, ?_, ?_, ?_⟩
      · rw [hstep]; simpa [hm1, Nat.add_comm, Nat.add_assoc, Nat.add_left_comm] using ihn
      · rw [hstep]
        simp only [List.length_cons, List.range'_succ]
        exact congrArg _ (by simpa [hm1] using ihaddr)
      · intro x hx
        rw [hstep]
        have hlt : x < m1.next := by rw [hm1]; exact Nat.lt_succ_of_lt hx
        have h1 : (deepcopyNodes m1 rest).1.heap x = m1.heap x := ihlow x hlt
        have hne : x ≠ m.next := by omega
        rw [h1, hm1]
        simp [hne]
      · rw [hstep]
        simp only [List.map_cons]
        have hhd : (deepcopyNodes m1 rest).1.heap m.next = m.heap a := by
          have hlt : m.next < m1.next := by rw [hm1]; exact Nat.lt_succ_self _
          rw [ihlow m.next hlt, hm1]
          simp
        have htl : (deepcopyNodes m1 rest).2.map (deepcopyNodes m1 rest).1.heap
            = rest.map m.heap := by
          rw [ihread]
          refine List.map_congr_left (fun a' h' => ?_)
          have hne : a' ≠ m.next := by
            have := hv a' (List.mem_cons_of_mem _ h')
            omega
          rw [hm1]
          simp [hne]
        rw [hhd, htl]

theorem patchFirstMem_frame :
    ∀ (addrs : List Nat) (m : Mem) (nid param : String) (v : PyVal) (x : Nat),
      x ∉ addrs → (patchFirstMem m addrs nid param v).heap x = m.heap x := by
  intro addrs
  induction addrs with
  | nil => intro m _ _ _ _ _; rfl
  | cons a rest ih =>
      intro m nid param v x hx
      have hxa : x ≠ a := fun h => hx (h ▸ List.mem_cons_self _ _)
      have hxr : x ∉ rest := fun h => hx (List.mem_cons_of_mem _ h)
      simp only [patchFirstMem]
      by_cases hc : (toString (m.heap a).id == nid) = true
      · rw [if_pos hc]
        cases patchNode (m.heap a) param v with
        | none => rfl
        | some n' => simp [writeMem, hxa]
      · rw [if_neg hc]
        exact ih m nid param v x hxr

theorem patchFirstMem_next :
    ∀ (addrs : List Nat) (m : Mem) (nid param : String) (v : PyVal),
      (patchFirstMem m addrs nid param v).next = m.next := by
  intro addrs
  induction addrs with
  | nil => intro m _ _ _; rfl
  | cons a rest ih =>
      intro m nid param v
      simp only [patchFirstMem]
      by_cases hc : (toString (m.heap a).id == nid) = true
      · rw [if_pos hc]
        cases patchNode (m.heap a) param v with
        | none => rfl
        | some n' => rfl
      · rw [if_neg hc]
        exact ih m nid param v

/-- In-place patching of duplicate-free references simulates the pure
`patchFirst` on the read-back node list. -/
theorem patchFirstMem_read :
    ∀ (addrs : List Nat) (m : Mem) (nid param : String) (v : PyVal),
      addrs.Nodup →
      addrs.map (patchFirstMem m addrs nid param v).heap
        = patchFirst (addrs.map m.heap) nid param v := by
  intro addrs
  induction addrs with
  | nil => intro m _ _ _ _; rfl
  | cons a rest ih =>
      intro m nid param v hnd
      rw [List.nodup_cons] at hnd
      obtain ⟨ha, hnd'⟩ := hnd
      simp only [patchFirstMem, List.map_cons, patchFirst]
      by_cases hc : (toString (m.heap a).id == nid) = true
      · rw [if_pos hc, if_pos hc]
        cases hpn : patchNode (m.heap a) param v with
        | none => rfl
        | some n' =>
            simp only [List.cons.injEq]
            constructor
            · simp [writeMem]
            · refine List.map_congr_left (fun x hx => ?_)
              have hxa : x ≠ a := fun h => ha (h ▸ hx)
              simp [writeMem, hxa]
      · rw [if_neg hc, if_neg hc]
        simp only [List.cons.injEq]
        exact ⟨patchFirstMem_frame rest m nid param v a ha, ih m nid param v hnd'⟩

theorem applyKeyMem_spec (m : Mem) (addrs : List Nat) (key : String) (v : PyVal)
    (hnd : addrs.Nodup) :
    addrs.map (applyKeyMem m addrs key v).heap = (applyKey (readW m addrs) key v).nodes
    ∧ (∀ x, x ∉ addrs → (applyKeyMem m addrs key v).heap x = m.heap x)
    ∧ (applyKeyMem m addrs key v).next = m.next := by
  unfold applyKeyMem applyKey
  rcases hsp : splitDot key with _ | ⟨nid, rest1⟩
  · exact ⟨rfl, fun _ _ => rfl, rfl⟩
  · rcases rest1 with _ | ⟨param, rest2⟩
    · exact ⟨rfl, fun _ _ => rfl, rfl⟩
    · rcases rest2 with _ | ⟨z, t⟩
      · exact ⟨patchFirstMem_read addrs m nid param v hnd,
          patchFirstMem_frame addrs m nid param v,
          patchFirstMem_next addrs m nid param v⟩
      · exact ⟨rfl, fun _ _ => rfl, rfl⟩

theorem updateFold_spec (updates : List (String × PyVal)) :
    ∀ (m : Mem) (addrs : List Nat), addrs.Nodup →
      addrs.map (updates.foldl (fun mm kv => applyKeyMem mm addrs kv.1 kv.2) m).heap
        = (update_workflow (readW m addrs) updates).nodes
      ∧ (∀ x, x ∉ addrs →
          (updates.foldl (fun mm kv => applyKeyMem mm addrs kv.1 kv.2) m).heap x
            = m.heap x)
      ∧ (updates.foldl (fun mm kv => applyKeyMem mm addrs kv.1 kv.2) m).next
          = m.next := by
  induction updates with
  | nil => exact fun m addrs _ => ⟨rfl, fun _ _ => rfl, rfl⟩
  | cons kv rest ih =>
      intro m addrs hnd
      obtain ⟨hread, hframe, hnext⟩ := applyKeyMem_spec m addrs kv.1 kv.2 hnd
      obtain ⟨ihread, ihframe, ihnext⟩ := ih (applyKeyMem m addrs kv.1 kv.2) addrs hnd
      have hW : readW (applyKeyMem m addrs kv.1 kv.2) addrs
          = applyKey (readW m addrs) kv.1 kv.2 := by
        show (⟨addrs.map (applyKeyMem m addrs kv.1 kv.2).heap⟩ : Workflow) = _
        rw [hread]
      refine ⟨?_, ?_, ?_⟩
      · rw [List.foldl_cons, ihread, hW]
        rfl
      · intro x hx
        rw [List.foldl_cons, ihframe x hx, hframe x hx]
      · rw [List.foldl_cons, ihnext, hnext]

theorem update_workflow_mem_eq (m : Mem) (w : List Nat)
    (u : List (String × PyVal)) :
    update_workflow_mem m w u
      = (u.foldl (fun mm kv => applyKeyMem mm (deepcopyNodes m w).2 kv.1 kv.2)
          (deepcopyNodes m w).1, (deepcopyNodes m w).2) := by
  unfold update_workflow_mem
  rcases h : deepcopyNodes m w with ⟨m1, c⟩
  rfl

/-- **C9**.  For every workflow object and every updates dictionary
(including unmatched node ids and parameter names and malformed keys),
`update_workflow` returns a patched deep copy — the returned references
read back exactly as the pure patch function applied to the input's value
— and leaves every node object of the input workflow completely
unchanged.  The hypothesis says the input references are valid heap
addresses.  (The per-occurrence copy in `deepcopyNodes` is faithful to
`copy.deepcopy` because JSON-loaded workflows never alias one node object
from two list positions.) -/
theorem c9_update_workflow_pure_frame (m : Mem) (wfAddrs : List Nat)
    (updates : List (String × PyVal))
    (hvalid : ∀ a ∈ wfAddrs, a < m.next) :
    readW (update_workflow_mem m wfAddrs updates).1 wfAddrs = readW m wfAddrs
    ∧ readW (update_workflow_mem m wfAddrs updates).1
        (update_workflow_mem m wfAddrs updates).2
      = update_workflow (readW m wfAddrs) updates := by
  obtain ⟨hnext, haddr, hlow, hread⟩ := deepcopyNodes_spec wfAddrs m hvalid
  have hcnd : (deepcopyNodes m wfAddrs).2.Nodup := by
    rw [haddr]; exact List.nodup_range' _ _
  obtain ⟨fread, fframe, _⟩ :=
    updateFold_spec updates (deepcopyNodes m wfAddrs).1 (deepcopyNodes m wfAddrs).2 hcnd
  have hnotin : ∀ a ∈ wfAddrs, a ∉ (deepcopyNodes m wfAddrs).2 := by
    intro a hmem hc
    rw [haddr, List.mem_range'_1] at hc
    exact absurd (hvalid a hmem) (by omega)
  have hcopyval : readW (deepcopyNodes m wfAddrs).1 (deepcopyNodes m wfAddrs).2
      = readW m wfAddrs := by
    show (⟨(deepcopyNodes m wfAddrs).2.map (deepcopyNodes m wfAddrs).1.heap⟩ : Workflow) = _
    rw [hread]
    rfl
  rw [update_workflow_mem_eq]
  constructor
  · show (⟨wfAddrs.map _⟩ : Workflow) = (⟨wfAddrs.map m.heap⟩ : Workflow)
    congr 1
    refine List.map_congr_left (fun a hmem => ?_)
    rw [fframe a (hnotin a hmem), hlow a (hvalid a hmem)]
  · show (⟨(deepcopyNodes m wfAddrs).2.map _⟩ : Workflow) = _
    rw [fread, hcopyval]

/-- **C9** witness: the frame theorem applied to a concrete two-node heap
and the concrete prompt-patching updates. -/
theorem c9_update_workflow_pure_frame_witness :
    (∀ a ∈ [0, 1], a < c9Mem.next)
    ∧ readW (update_workflow_mem c9Mem [0, 1] c8Updates).1 [0, 1]
        = readW c9Mem [0, 1]
    ∧ readW (update_workflow_mem c9Mem [0, 1] c8Updates).1
        (update_workflow_mem c9Mem [0, 1] c8Updates).2
      = update_workflow (readW c9Mem [0, 1]) c8Updates :=
  ⟨by decide,
    (c9_update_workflow_pure_frame c9Mem [0, 1] c8Updates (by decide)).1,
    (c9_update_workflow_pure_frame c9Mem [0, 1] c8Updates (by decide)).2⟩

/-- **C1** witness: the amended theorem applied to the concrete fully
successful 2-scene run. -/
theorem c1_overall_progress_monotone_witness :
    c1Scenario.videoOk.length ≤ c1Scenario.sceneCount
    ∧ (List.Chain' (fun a b => a.overallProgress ≤ b.overallProgress)
          (jobSnapshots c1Scenario)
        ∧ ∀ st ∈ jobSnapshots c1Scenario,
            st.status = "completed" → st.overallProgress = 100) :=
  ⟨by decide, c1_overall_progress_monotone c1Scenario (by decide)⟩

end Songtov
